import Mathlib

/-!
Verification of the Ikeja storefront client state containers.

The development shallowly embeds the two client-side state containers of the
repository:

* `AppJs` — the `AuthProvider`/`CartProvider` pair of `src/frontend/src/App.js`
  (token verification, login/register/logout, cart fetch/add/remove);
* `ComponentsJs` — the `AppProvider` of `src/frontend/src/components.js`
  (event tracking, recommendation loading, the `useApp` hook).

Network interaction is modelled by passing the outcome of each HTTP call as an
explicit argument: `NetOutcome` mirrors `fetch` (which resolves with an `ok`
flag for any HTTP status and rejects only on transport errors), while
`AxiosOutcome` mirrors `axios` (which rejects on any non-success status, so the
catch block sees server rejections and transport errors alike).  Every
operation returns its successor state together with the list of HTTP requests
it issued and the value it returned to its caller, so that claims about
"no network call is made" or "the operation returns a result object" are
directly statable.  All source operations wrap their bodies in try/catch, so
the embedded operations are total functions: a transport error is consumed by
the branch that models the catch block.
-/

namespace AppJs

/-- A cart line item as consumed by `App.js` (`product_id`, `quantity`,
`price`); prices carry no arithmetic in any verified property, so they are
embedded as integers. -/
structure CartItem where
  product_id : String
  quantity : Nat
  price : Int
deriving DecidableEq

/-- The JSON body of `GET /api/cart` as stored verbatim by `setCart(data)`
(App.js line 159).  The client code reads `items` and `total_amount`; per the
server contract (spec section 6) the response also carries a server-computed
summary item count, which the client never reads — it is kept here so that the
question "is the held count the verbatim server value?" is statable. -/
structure CartData where
  items : List CartItem
  total_amount : Int
  item_count : Option Nat
deriving DecidableEq

/-- The user object delivered by the auth endpoints (`data.user`); the UI
reads `full_name`. -/
structure UserData where
  id : String
  full_name : String
deriving DecidableEq

/-- Outcome of a `fetch` call: the promise either rejects (`netError`,
landing in the catch block) or resolves with a response whose `ok` flag
reflects the HTTP status and whose parsed JSON body is `data`. -/
inductive NetOutcome (α : Type) where
  | netError
  | reply (ok : Bool) (data : α)
deriving DecidableEq

/-- The HTTP requests App.js can issue, tagged with their parameters. -/
inductive Request where
  | verifyReq (token : String)
  | loginReq (email password : String)
  | registerReq (email password fullName : String)
  | fetchCartReq (token : String)
  | addCartReq (token : String) (productId : String) (quantity : Nat) (price : Int)
  | removeCartReq (token : String) (productId : String)
deriving DecidableEq

/-- Combined state of `AuthProvider` and `CartProvider`: the `user`, `token`
and `loading` React state, the durable `localStorage` slot keyed `token`
(`storedToken`), and the `cart`/`cartCount` React state. -/
structure AppState where
  user : Option UserData
  token : Option String
  storedToken : Option String
  loading : Bool
  cart : CartData
  cartCount : Nat
deriving DecidableEq

/-- The result object `{ success, error }` returned by login, register and
addToCart; the `error` field is absent (`none`) on success. -/
structure OpResult where
  success : Bool
  error : Option String
deriving DecidableEq

/-- Output of a container operation: successor state, requests issued, and
the value returned to the caller (`none` models returning `undefined`). -/
structure MutOut where
  state : AppState
  requests : List Request
  result : Option OpResult
deriving DecidableEq

/-- `data.items?.reduce((sum, item) => sum + item.quantity, 0) || 0`
(App.js line 160): the client-side sum of the quantities of the fetched
items. -/
def sumQuantities (items : List CartItem) : Nat :=
  items.foldl (fun s i => s + i.quantity) 0

/-- `fetchCart` (App.js lines 149-165): no-op without a token; on an `ok`
response it stores the body verbatim in `cart` and recomputes `cartCount`
from the items; a non-`ok` response or a transport error leaves the state
untouched (the catch block only logs).  The source returns `undefined` on
every path. -/
def fetchCart (st : AppState) (w : NetOutcome CartData) : MutOut :=
  match st.token with
  | none => ⟨st, [], none⟩
  | some t =>
    match w with
    | .netError => ⟨st, [.fetchCartReq t], none⟩
    | .reply ok data =>
      if ok then
        ⟨{ st with cart := data, cartCount := sumQuantities data.items },
          [.fetchCartReq t], none⟩
      else
        ⟨st, [.fetchCartReq t], none⟩

/-- JSON body of a non-`ok` mutation response as read by `addToCart`
(`data.detail`, App.js line 189); the field may be absent. -/
structure ErrBody where
  detail : Option String
deriving DecidableEq

/-- Outcomes supplied to a cart mutation: the mutating call itself and the
follow-up `fetchCart`.  `removeFromCart` never parses the mutation response
body, mirroring the source, which calls `response.json()` only in
`addToCart`. -/
structure CartMutWorld where
  mutResp : NetOutcome ErrBody
  cartResp : NetOutcome CartData
deriving DecidableEq

/-- `addToCart` (App.js lines 167-194): without a token it returns the
login-required failure before any network call; otherwise it posts the
mutation, re-fetches the cart only when the mutation response is `ok`, and
maps a non-`ok` response to `{ success: false, error: data.detail }` and a
transport error to the generic network failure. -/
def addToCart (st : AppState) (productId : String) (quantity : Nat)
    (price : Int) (w : CartMutWorld) : MutOut :=
  match st.token with
  | none => ⟨st, [], some ⟨false, some "Please login to add items to cart"⟩⟩
  | some t =>
    let req := Request.addCartReq t productId quantity price
    match w.mutResp with
    | .netError => ⟨st, [req], some ⟨false, some "Network error"⟩⟩
    | .reply ok body =>
      if ok then
        let f := fetchCart st w.cartResp
        ⟨f.state, req :: f.requests, some ⟨true, none⟩⟩
      else
        ⟨st, [req], some ⟨false, body.detail⟩⟩

/-- `removeFromCart` (App.js lines 196-211): without a token it returns
`undefined` immediately; otherwise it issues the delete, re-fetches only on
an `ok` response, logs on transport error, and returns `undefined` on every
path. -/
def removeFromCart (st : AppState) (productId : String) (w : CartMutWorld) :
    MutOut :=
  match st.token with
  | none => ⟨st, [], none⟩
  | some t =>
    let req := Request.removeCartReq t productId
    match w.mutResp with
    | .netError => ⟨st, [req], none⟩
    | .reply ok _ =>
      if ok then
        let f := fetchCart st w.cartResp
        ⟨f.state, req :: f.requests, none⟩
      else
        ⟨st, [req], none⟩

/-- JSON body of the auth endpoints: `token` and `user` are read on an `ok`
response, `detail` on a rejection. -/
structure AuthBody where
  token : String
  user : UserData
  detail : Option String
deriving DecidableEq

/-- `login` (App.js lines 75-96): on `ok` stores the returned token in memory
and durable storage and sets the user; on rejection returns the server detail;
on transport error returns the generic network failure. -/
def login (st : AppState) (email password : String)
    (w : NetOutcome AuthBody) : MutOut :=
  let req := Request.loginReq email password
  match w with
  | .netError => ⟨st, [req], some ⟨false, some "Network error"⟩⟩
  | .reply ok data =>
    if ok then
      ⟨{ st with
          token := some data.token, user := some data.user,
          storedToken := some data.token }, [req], some ⟨true, none⟩⟩
    else
      ⟨st, [req], some ⟨false, data.detail⟩⟩

/-- `register` (App.js lines 98-123): same contract as `login` with the extra
display-name field in the request. -/
def register (st : AppState) (email password fullName : String)
    (w : NetOutcome AuthBody) : MutOut :=
  let req := Request.registerReq email password fullName
  match w with
  | .netError => ⟨st, [req], some ⟨false, some "Network error"⟩⟩
  | .reply ok data =>
    if ok then
      ⟨{ st with
          token := some data.token, user := some data.user,
          storedToken := some data.token }, [req], some ⟨true, none⟩⟩
    else
      ⟨st, [req], some ⟨false, data.detail⟩⟩

/-- `logout` (App.js lines 125-129): clears the user and the token from
memory and durable storage; it touches nothing else — in particular it never
writes `cart` or `cartCount`. -/
def logout (st : AppState) : AppState :=
  { st with user := none, token := none, storedToken := none }

/-- JSON body of `GET /api/auth/verify` as read by the startup effect:
only the optional `user` field is inspected. -/
structure VerifyBody where
  user : Option UserData
deriving DecidableEq

/-- The startup verification effect (App.js lines 50-73): with no stored
token it only ends the loading state.  With a token it calls the verify
endpoint; the source never reads `response.ok` here, so the `ok` flag of a
reply is ignored: the token is kept and the user populated exactly when the
parsed body carries a user, and on a body without a user or a transport
error the token is removed from memory and durable storage. -/
def verifyToken (st : AppState) (w : NetOutcome VerifyBody) :
    AppState × List Request :=
  match st.token with
  | none => ({ st with loading := false }, [])
  | some t =>
    match w with
    | .netError =>
      ({ st with token := none, storedToken := none, loading := false },
        [.verifyReq t])
    | .reply _ data =>
      match data.user with
      | some u => ({ st with user := some u, loading := false }, [.verifyReq t])
      | none =>
        ({ st with token := none, storedToken := none, loading := false },
          [.verifyReq t])

end AppJs

namespace ComponentsJs

/-- The user object of the `components.js` container; every user object the
source constructs is the literal mock user (lines 240 and 1219-1225). -/
structure UserC where
  id : String
  full_name : String
  email : String
deriving DecidableEq

/-- The one user object the source ever stores (components.js lines
1219-1225; line 240 stores the same literal without the phone field). -/
def mockUser : UserC :=
  ⟨"user_001", "John Smith", "john@example.com"⟩

/-- A recommendation entry; the container treats entries as opaque list
elements, so only the fields needed to distinguish concrete values are
modelled. -/
structure Rec where
  product_id : String
  score : Int
deriving DecidableEq

/-- The cart object stored verbatim by `setCart(response.data)`
(components.js line 37); opaque to every claim about this container. -/
structure CCart where
  user_id : String
  item_count : Nat
deriving DecidableEq

/-- The analytics payload posted by `trackEvent` (components.js lines
20-27), field for field. -/
structure TrackingEvent where
  session_id : String
  user_id : Option String
  event_type : String
  page_url : String
  properties : List (String × String)
  timestamp : String
deriving DecidableEq

/-- Outcome of an `axios` call: `axios` rejects the promise on transport
errors and on any non-success HTTP status alike, so the catch block sees a
single failure case; on success the parsed body is `data`. -/
inductive AxiosOutcome (α : Type) where
  | fail
  | success (data : α)
deriving DecidableEq

/-- The HTTP requests the `AppProvider` operations can issue. -/
inductive CRequest where
  | trackReq (ev : TrackingEvent)
  | cartReq (userId : String)
  | recUserReq (userId : String) (sessionId : String)
  | recSessionReq (sessionId : String)
deriving DecidableEq

/-- State of the `components.js` `AppProvider`: `user`, `cart`, the
session id fixed at construction, the recommendation list and the `loading`
flag of the second provider variant. -/
structure CState where
  user : Option UserC
  cart : Option CCart
  sessionId : String
  recommendations : List Rec
  loading : Bool
deriving DecidableEq

/-- Output of an `AppProvider` operation: successor state and requests
issued; these operations return `undefined` to their callers. -/
structure COut where
  state : CState
  requests : List CRequest
deriving DecidableEq

/-- `trackEvent` (components.js lines 18-31): builds the payload from the
session id, `user?.id`, the event type, the current page path, the caller
property bag and a client-generated timestamp, posts it, and catches any
failure with a log only.  No state field is written on any path, so the
axios outcome is irrelevant to the successor state. -/
def trackEvent (st : CState) (eventType : String)
    (properties : List (String × String)) (pagePath : String)
    (now : String) (w : AxiosOutcome Unit) : COut :=
  let ev : TrackingEvent :=
    { session_id := st.sessionId
      user_id := st.user.map (fun u => u.id)
      event_type := eventType
      page_url := pagePath
      properties := properties
      timestamp := now }
  match w with
  | .fail => ⟨st, [.trackReq ev]⟩
  | .success _ => ⟨st, [.trackReq ev]⟩

/-- JSON body of a recommendation response: the `recommendations` field may
be absent, in which case the source falls back to `[]`
(`response.data.recommendations || []`, line 51). -/
structure RecBody where
  recommendations : Option (List Rec)
deriving DecidableEq

/-- `loadRecommendations` (components.js lines 44-55): picks the user-scoped
endpoint when `user?.id` is truthy and the session-scoped endpoint otherwise,
issues exactly that single request, replaces the whole recommendation list on
success, and on failure logs and leaves it untouched. -/
def loadRecommendations (st : CState) (w : AxiosOutcome RecBody) : COut :=
  let req :=
    match st.user with
    | some u =>
      if u.id = "" then CRequest.recSessionReq st.sessionId
      else CRequest.recUserReq u.id st.sessionId
    | none => CRequest.recSessionReq st.sessionId
  match w with
  | .fail => ⟨st, [req]⟩
  | .success data =>
    ⟨{ st with recommendations := data.recommendations.getD [] }, [req]⟩

/-- `useApp` (components.js lines 72-78 and 1130-1136): throws when the
context value is absent, returns the shared state otherwise; the thrown
error is modelled as the `Except.error` case carrying the message. -/
def useApp (context : Option CState) : Except String CState :=
  match context with
  | none => Except.error "useApp must be used within AppProvider"
  | some c => Except.ok c

end ComponentsJs

namespace AppJs

/-- A sample authenticated state with a non-empty cart, used to evaluate the
operations at concrete inputs. -/
def authState : AppState :=
  ⟨some ⟨"u1", "Alice"⟩, some "tok1", some "tok1", false, ⟨[⟨"p1", 2, 10⟩], 20, none⟩, 2⟩

/-- A sample unauthenticated state with an empty cart. -/
def anonState : AppState :=
  ⟨none, none, none, false, ⟨[], 0, none⟩, 0⟩

/-- A sample startup state: stored token present, user not yet populated. -/
def startupState : AppState :=
  ⟨none, some "tok1", some "tok1", true, ⟨[], 0, none⟩, 0⟩

/-- The empty cart body. -/
def emptyCartData : CartData := ⟨[], 0, none⟩

/-- Claim C1: with no token set, `addToCart` issues no network request and
returns the failure result whose message asks the caller to log in; with a
token present it issues the mutating request. -/
theorem addToCart_requires_auth (st : AppState) (productId : String)
    (quantity : Nat) (price : Int) (w : CartMutWorld) :
    (st.token = none →
      (addToCart st productId quantity price w).requests = [] ∧
      (addToCart st productId quantity price w).result =
        some ⟨false, some "Please login to add items to cart"⟩) ∧
    (∀ t, st.token = some t →
      Request.addCartReq t productId quantity price ∈
        (addToCart st productId quantity price w).requests) := by
  constructor
  · intro h
    simp [addToCart, h]
  · intro t h
    rcases w with ⟨mr, cr⟩
    cases mr with
    | netError => simp [addToCart, h]
    | reply ok body => cases ok <;> simp [addToCart, h]

/-- Concrete instances of `addToCart_requires_auth`: the unauthenticated
state issues nothing and gets the login-required failure, the authenticated
state issues the mutating request. -/
theorem addToCart_requires_auth_witness :
    ((addToCart anonState "p1" 1 5 ⟨.netError, .netError⟩).requests = [] ∧
      (addToCart anonState "p1" 1 5 ⟨.netError, .netError⟩).result =
        some ⟨false, some "Please login to add items to cart"⟩) ∧
    Request.addCartReq "tok1" "p1" 1 5 ∈
      (addToCart authState "p1" 1 5 ⟨.netError, .netError⟩).requests :=
  ⟨(addToCart_requires_auth anonState "p1" 1 5 ⟨.netError, .netError⟩).1 rfl,
   (addToCart_requires_auth authState "p1" 1 5 ⟨.netError, .netError⟩).2 "tok1" rfl⟩

end AppJs

namespace AppJs

/-- Claim C2: when the mutating call of `addToCart` or `removeFromCart`
fails — transport error or non-`ok` HTTP status — the cart snapshot and the
derived cart count are exactly the ones from before the call, the re-fetch is
skipped, and the operation still returns normally (`addToCart` with a result
object, `removeFromCart` with its usual `undefined`), the source catch blocks
having absorbed any exception. -/
theorem cart_mutation_failure_frame (st : AppState) (productId : String)
    (quantity : Nat) (price : Int) (w : CartMutWorld)
    (hfail : w.mutResp = .netError ∨ ∃ d, w.mutResp = .reply false d) :
    ((addToCart st productId quantity price w).state.cart = st.cart ∧
      (addToCart st productId quantity price w).state.cartCount = st.cartCount ∧
      (∀ t, Request.fetchCartReq t ∉ (addToCart st productId quantity price w).requests) ∧
      (addToCart st productId quantity price w).result.isSome) ∧
    ((removeFromCart st productId w).state.cart = st.cart ∧
      (removeFromCart st productId w).state.cartCount = st.cartCount ∧
      (∀ t, Request.fetchCartReq t ∉ (removeFromCart st productId w).requests) ∧
      (removeFromCart st productId w).result = none) := by
  rcases w with ⟨mr, cr⟩
  rcases hfail with h | ⟨d, h⟩ <;>
    simp only at h <;> subst h <;>
      cases htok : st.token <;>
        simp [addToCart, removeFromCart, htok]

/-- Concrete instances of `cart_mutation_failure_frame`: a server-rejected
add and remove on the authenticated sample state leave the cart and count in
place, issue no re-fetch, and return normally. -/
theorem cart_mutation_failure_frame_witness :
    (addToCart authState "p1" 1 5
        ⟨.reply false ⟨some "out of stock"⟩, .netError⟩).state.cart = authState.cart ∧
    (removeFromCart authState "p1"
        ⟨.reply false ⟨some "out of stock"⟩, .netError⟩).state.cartCount = authState.cartCount :=
  ⟨(cart_mutation_failure_frame authState "p1" 1 5
      ⟨.reply false ⟨some "out of stock"⟩, .netError⟩
      (Or.inr ⟨⟨some "out of stock"⟩, rfl⟩)).1.1,
   ((cart_mutation_failure_frame authState "p1" 1 5
      ⟨.reply false ⟨some "out of stock"⟩, .netError⟩
      (Or.inr ⟨⟨some "out of stock"⟩, rfl⟩)).2.2.1)⟩

/-- Claim C10: with no token set, `removeFromCart` is a silent no-op — no
request, state untouched, and it returns `undefined` (no failure
indication). -/
theorem removeFromCart_unauthenticated_noop (st : AppState)
    (productId : String) (w : CartMutWorld) (h : st.token = none) :
    removeFromCart st productId w = ⟨st, [], none⟩ := by
  simp [removeFromCart, h]

/-- Concrete instance of `removeFromCart_unauthenticated_noop` on the
unauthenticated sample state. -/
theorem removeFromCart_unauthenticated_noop_witness :
    removeFromCart anonState "p1" ⟨.netError, .netError⟩ = ⟨anonState, [], none⟩ :=
  removeFromCart_unauthenticated_noop anonState "p1" ⟨.netError, .netError⟩ rfl

end AppJs

namespace AppJs

/-- Claim C3, evaluated at the failing input: from the authenticated sample
state whose cart holds one item, `logout()` followed by `fetchCart()` leaves
the previous user's items and count readable in memory — `logout` never
writes the cart state and `fetchCart` returns before any network call once
the token is gone (even though the server would now report an empty cart). -/
theorem logout_then_fetchCart_keeps_prior_cart :
    (fetchCart (logout authState) (.reply true emptyCartData)).state.cart =
      authState.cart ∧
    (fetchCart (logout authState) (.reply true emptyCartData)).state.cart.items ≠ [] ∧
    (fetchCart (logout authState) (.reply true emptyCartData)).state.cartCount = 2 ∧
    (fetchCart (logout authState) (.reply true emptyCartData)).requests = [] := by
  refine ⟨rfl, ?_, rfl, rfl⟩
  decide

/-- Claim C4: during startup verification with a stored token, a transport
error or a response without a user leaves the user unset and removes the
token from memory and durable storage; the token is kept and the user
populated exactly when the response carries a user. -/
theorem verify_settles_stored_token (st : AppState) (t : String)
    (htok : st.token = some t) (hstart : st.user = none)
    (w : NetOutcome VerifyBody) :
    ((w = .netError ∨ ∃ ok, w = .reply ok ⟨none⟩) →
      (verifyToken st w).1.user = none ∧
      (verifyToken st w).1.token = none ∧
      (verifyToken st w).1.storedToken = none) ∧
    (∀ ok u, w = .reply ok ⟨some u⟩ →
      (verifyToken st w).1.user = some u ∧
      (verifyToken st w).1.token = some t ∧
      (verifyToken st w).1.storedToken = st.storedToken) := by
  constructor
  · rintro (h | ⟨ok, h⟩) <;> subst h <;> simp [verifyToken, htok, hstart]
  · rintro ok u h
    subst h
    simp [verifyToken, htok]

/-- Concrete instances of `verify_settles_stored_token` on the startup
sample state: a rejecting body clears the token from memory and storage, a
body carrying a user populates the user and keeps the token. -/
theorem verify_settles_stored_token_witness :
    ((verifyToken startupState (.reply true ⟨none⟩)).1.token = none ∧
      (verifyToken startupState (.reply true ⟨none⟩)).1.storedToken = none) ∧
    ((verifyToken startupState (.reply true ⟨some ⟨"u1", "Alice"⟩⟩)).1.user =
        some ⟨"u1", "Alice"⟩ ∧
      (verifyToken startupState (.reply true ⟨some ⟨"u1", "Alice"⟩⟩)).1.token =
        some "tok1") :=
  ⟨⟨((verify_settles_stored_token startupState "tok1" rfl rfl
        (.reply true ⟨none⟩)).1 (Or.inr ⟨true, rfl⟩)).2.1,
    ((verify_settles_stored_token startupState "tok1" rfl rfl
        (.reply true ⟨none⟩)).1 (Or.inr ⟨true, rfl⟩)).2.2⟩,
   ⟨((verify_settles_stored_token startupState "tok1" rfl rfl
        (.reply true ⟨some ⟨"u1", "Alice"⟩⟩)).2 true ⟨"u1", "Alice"⟩ rfl).1,
    ((verify_settles_stored_token startupState "tok1" rfl rfl
        (.reply true ⟨some ⟨"u1", "Alice"⟩⟩)).2 true ⟨"u1", "Alice"⟩ rfl).2.1⟩⟩

end AppJs

namespace AppJs

/-- Claim C5 counterexample: a fully successful authenticated
`removeFromCart` call returns `undefined`, not a result object with a
success flag — refuting the claim that every cart mutation operation
returns such an object for every outcome. -/
theorem removeFromCart_returns_no_result :
    (removeFromCart authState "p1"
      ⟨.reply true ⟨none⟩, .reply true emptyCartData⟩).result = none := rfl

/-- Claim C5 amended: `login`, `register` and `addToCart` return a result
object for every outcome — flagged success on an `ok` response, the generic
network failure on a transport error — while `removeFromCart` returns no
result value (`undefined`) on every outcome. -/
theorem ops_return_result_objects (st : AppState)
    (email password fullName productId : String) (quantity : Nat)
    (price : Int) (wa : NetOutcome AuthBody) (wm : CartMutWorld) :
    (login st email password wa).result.isSome ∧
    (register st email password fullName wa).result.isSome ∧
    (addToCart st productId quantity price wm).result.isSome ∧
    (removeFromCart st productId wm).result = none ∧
    (wa = .netError →
      (login st email password wa).result =
        some ⟨false, some "Network error"⟩) ∧
    (∀ b, wa = .reply true b →
      (login st email password wa).result = some ⟨true, none⟩) := by
  rcases wm with ⟨mr, cr⟩
  refine ⟨?_, ?_, ?_, ?_, ?_, ?_⟩
  · cases wa with
    | netError => simp [login]
    | reply ok data => cases ok <;> simp [login]
  · cases wa with
    | netError => simp [register]
    | reply ok data => cases ok <;> simp [register]
  · cases htok : st.token with
    | none => simp [addToCart, htok]
    | some t =>
      cases mr with
      | netError => simp [addToCart, htok]
      | reply ok body => cases ok <;> simp [addToCart, htok]
  · cases htok : st.token with
    | none => simp [removeFromCart, htok]
    | some t =>
      cases mr with
      | netError => simp [removeFromCart, htok]
      | reply ok body => cases ok <;> simp [removeFromCart, htok]
  · intro h
    subst h
    simp [login]
  · intro b h
    subst h
    simp [login]

/-- Concrete instances of `ops_return_result_objects`: a transport-error
login returns the generic network failure and a successful login returns the
flagged success object. -/
theorem ops_return_result_objects_witness :
    (login anonState "a@b.c" "pw" .netError).result =
      some ⟨false, some "Network error"⟩ ∧
    (login anonState "a@b.c" "pw"
        (.reply true ⟨"tok9", ⟨"u9", "Bea"⟩, none⟩)).result =
      some ⟨true, none⟩ :=
  ⟨(ops_return_result_objects anonState "a@b.c" "pw" "n" "p1" 1 5 .netError
      ⟨.netError, .netError⟩).2.2.2.2.1 rfl,
   (ops_return_result_objects anonState "a@b.c" "pw" "n" "p1" 1 5
      (.reply true ⟨"tok9", ⟨"u9", "Bea"⟩, none⟩)
      ⟨.netError, .netError⟩).2.2.2.2.2 ⟨"tok9", ⟨"u9", "Bea"⟩, none⟩ rfl⟩

end AppJs

namespace AppJs

/-- A cart response whose server-side summary count (42) disagrees with the
sum of its item quantities (2 + 3 = 5). -/
def mismatchedCart : CartData := ⟨[⟨"p1", 2, 5⟩, ⟨"p2", 3, 7⟩], 31, some 42⟩

/-- Claim C6 counterexample: after a successful fetch of `mismatchedCart`
the held cart count is 5 — the locally computed sum of the line-item
quantities — not the 42 the server sent as its summary count, so the count
is derived locally rather than taken verbatim from the response. -/
theorem cartCount_is_derived_locally :
    mismatchedCart.item_count = some 42 ∧
    (fetchCart authState (.reply true mismatchedCart)).state.cartCount =
      sumQuantities mismatchedCart.items ∧
    (fetchCart authState (.reply true mismatchedCart)).state.cartCount = 5 ∧
    (fetchCart authState (.reply true mismatchedCart)).state.cartCount ≠ 42 := by
  refine ⟨rfl, rfl, rfl, ?_⟩
  decide

/-- Claim C6 amended: after every successful cart mutation the client
re-fetches and stores the server's cart object verbatim — in particular the
held total is the server's — but the derived cart count is computed locally
as the sum of the fetched line-item quantities, not read from a server
summary field. -/
theorem refetch_stores_server_cart (st : AppState) (t productId : String)
    (quantity : Nat) (price : Int) (body : ErrBody) (resp : CartData)
    (htok : st.token = some t) :
    ((addToCart st productId quantity price
        ⟨.reply true body, .reply true resp⟩).state.cart = resp ∧
      (addToCart st productId quantity price
        ⟨.reply true body, .reply true resp⟩).state.cart.total_amount =
        resp.total_amount ∧
      (addToCart st productId quantity price
        ⟨.reply true body, .reply true resp⟩).state.cartCount =
        sumQuantities resp.items ∧
      Request.fetchCartReq t ∈
        (addToCart st productId quantity price
          ⟨.reply true body, .reply true resp⟩).requests) ∧
    ((removeFromCart st productId
        ⟨.reply true body, .reply true resp⟩).state.cart = resp ∧
      (removeFromCart st productId
        ⟨.reply true body, .reply true resp⟩).state.cartCount =
        sumQuantities resp.items ∧
      Request.fetchCartReq t ∈
        (removeFromCart st productId
          ⟨.reply true body, .reply true resp⟩).requests) := by
  constructor <;> simp [addToCart, removeFromCart, fetchCart, htok]

/-- Concrete instance of `refetch_stores_server_cart`: a successful add on
the authenticated sample state stores the fetched cart verbatim and counts
its quantities locally. -/
theorem refetch_stores_server_cart_witness :
    (addToCart authState "p1" 1 5
        ⟨.reply true ⟨none⟩, .reply true mismatchedCart⟩).state.cart =
      mismatchedCart ∧
    (addToCart authState "p1" 1 5
        ⟨.reply true ⟨none⟩, .reply true mismatchedCart⟩).state.cartCount =
      sumQuantities mismatchedCart.items :=
  ⟨(refetch_stores_server_cart authState "tok1" "p1" 1 5 ⟨none⟩
      mismatchedCart rfl).1.1,
   (refetch_stores_server_cart authState "tok1" "p1" 1 5 ⟨none⟩
      mismatchedCart rfl).1.2.2.1⟩

end AppJs

namespace ComponentsJs

/-- A sample anonymous container state. -/
def anonCState : CState :=
  ⟨none, none, "session_abc123def", [⟨"p9", 1⟩], false⟩

/-- A sample signed-in container state holding the mock user. -/
def userCState : CState :=
  ⟨some mockUser, none, "session_abc123def", [⟨"p9", 1⟩], false⟩

/-- Claim C7: every `trackEvent` call emits exactly one event carrying the
session id, the current user id when a user is set, the current page path
and the client-generated timestamp; and on every outcome — the failing one
included — the container state is left exactly as it was, the catch block
having absorbed the error. -/
theorem trackEvent_payload_and_frame (st : CState) (eventType : String)
    (properties : List (String × String)) (pagePath now : String)
    (w : AxiosOutcome Unit) :
    (trackEvent st eventType properties pagePath now w).state = st ∧
    ∃ ev, (trackEvent st eventType properties pagePath now w).requests =
        [.trackReq ev] ∧
      ev.session_id = st.sessionId ∧
      ev.user_id = st.user.map (fun u => u.id) ∧
      (∀ u, st.user = some u → ev.user_id = some u.id) ∧
      ev.page_url = pagePath ∧
      ev.timestamp = now ∧
      ev.event_type = eventType ∧
      ev.properties = properties := by
  cases w with
  | fail =>
    refine ⟨rfl, ⟨_, rfl, rfl, rfl, ?_, rfl, rfl, rfl, rfl⟩⟩
    intro u hu
    simp [hu]
  | success d =>
    refine ⟨rfl, ⟨_, rfl, rfl, rfl, ?_, rfl, rfl, rfl, rfl⟩⟩
    intro u hu
    simp [hu]

/-- Concrete instance of `trackEvent_payload_and_frame`: a failing tracking
call from the signed-in sample state leaves the state untouched, and the
emitted event carries the mock user id. -/
theorem trackEvent_payload_and_frame_witness :
    (trackEvent userCState "search" [("query", "phone")] "/" "2025-01-01"
        .fail).state = userCState ∧
    ∃ ev, (trackEvent userCState "search" [("query", "phone")] "/"
        "2025-01-01" .fail).requests = [.trackReq ev] ∧
      ev.user_id = some mockUser.id :=
  ⟨(trackEvent_payload_and_frame userCState "search" [("query", "phone")]
      "/" "2025-01-01" .fail).1,
   match (trackEvent_payload_and_frame userCState "search"
      [("query", "phone")] "/" "2025-01-01" .fail).2 with
   | ⟨ev, hreq, _, _, huser, _, _, _, _⟩ =>
     ⟨ev, hreq, huser mockUser rfl⟩⟩

/-- Claim C8: `loadRecommendations` issues exactly one request — the
session-scoped endpoint when no user is set, the user-scoped endpoint when a
user with a (truthy) id is set, never both; on success it replaces the
entire recommendation list with the response (falling back to the empty
list), and on failure it leaves the whole state, the prior list included,
untouched. -/
theorem loadRecommendations_single_endpoint (st : CState)
    (w : AxiosOutcome RecBody) :
    (loadRecommendations st w).requests.length = 1 ∧
    (st.user = none →
      (loadRecommendations st w).requests = [.recSessionReq st.sessionId]) ∧
    (∀ u, st.user = some u → u.id ≠ "" →
      (loadRecommendations st w).requests =
        [.recUserReq u.id st.sessionId]) ∧
    (∀ d, w = .success d →
      (loadRecommendations st w).state.recommendations =
        d.recommendations.getD []) ∧
    (w = .fail → (loadRecommendations st w).state = st) := by
  cases hu : st.user with
  | none => cases w <;> simp [loadRecommendations, hu]
  | some u =>
    by_cases hid : u.id = "" <;> cases w <;>
      simp [loadRecommendations, hu, hid]

/-- Concrete instances of `loadRecommendations_single_endpoint`: the
anonymous sample state calls the session-scoped endpoint; the signed-in
sample state calls the user-scoped endpoint; a failing load leaves the prior
list in place; a successful load replaces it. -/
theorem loadRecommendations_single_endpoint_witness :
    (loadRecommendations anonCState .fail).requests =
      [.recSessionReq "session_abc123def"] ∧
    (loadRecommendations userCState .fail).requests =
      [.recUserReq "user_001" "session_abc123def"] ∧
    (loadRecommendations userCState .fail).state = userCState ∧
    (loadRecommendations userCState
        (.success ⟨some [⟨"p3", 9⟩]⟩)).state.recommendations = [⟨"p3", 9⟩] :=
  ⟨(loadRecommendations_single_endpoint anonCState .fail).2.1 rfl,
   (loadRecommendations_single_endpoint userCState .fail).2.2.1 mockUser rfl
     (by decide),
   (loadRecommendations_single_endpoint userCState .fail).2.2.2.2 rfl,
   (loadRecommendations_single_endpoint userCState
     (.success ⟨some [⟨"p3", 9⟩]⟩)).2.2.2.1 ⟨some [⟨"p3", 9⟩]⟩ rfl⟩

/-- Claim C9: `useApp` throws the message
`useApp must be used within AppProvider` when the context value is absent
and returns the shared state object when inside a provider. -/
theorem useApp_contract (c : CState) :
    useApp none = Except.error "useApp must be used within AppProvider" ∧
    useApp (some c) = Except.ok c :=
  ⟨rfl, rfl⟩

end ComponentsJs

namespace ComponentsJs

/-- Concrete instance of `useApp_contract` at the signed-in sample state. -/
theorem useApp_contract_witness :
    useApp none = Except.error "useApp must be used within AppProvider" ∧
    useApp (some userCState) = Except.ok userCState :=
  useApp_contract userCState

end ComponentsJs
